import Mathlib

/-!
Verification of the session-store and API-gateway core of the hiking-log
mobile client (files `src/service/utils/auth-utils.ts`, the axios client
module, and `src/service/api/hike.ts`).

Modelling conventions (shallow embedding of the TypeScript source):

* JavaScript strings are Lean `String`; `token.split(".")` is modelled by
  an executable dot-splitter `jsSplitDot` with the exact semantics of the
  JS single-character `split` (empty string yields one empty segment,
  adjacent separators yield empty segments).
* The decoded JWT payload is modelled as a record with an optional `exp`
  number (the only claim the client inspects); the external
  `JSON.parse(atob(...))` composite is a parameter `parse`:
  it returns `none` (respectively `Except.error`) exactly when the real
  call would throw.
* Epoch time is an integer `now`; JS falsiness of a number is `= 0`.
* `AsyncStorage` in the reliable-state model is a two-field record
  `Store` (keys "authToken" and "user"); the storage-failure dimension is
  modelled separately by passing each primitive's outcome as an
  `Except` value to the wrapper that the source builds around it.
* Fallible JS code is modelled in `Except`; a `try`/`catch` block is the
  combinator `jsTry`.
-/

namespace HikeApp

/-- JS `String.prototype.split` with a one-character separator, on the
character list of the string: `"" ↦ [[]]`, separators delimit possibly
empty segments. -/
def splitCharList (c : Char) : List Char → List (List Char)
  | [] => [[]]
  | x :: xs =>
    let rest := splitCharList c xs
    if x = c then [] :: rest
    else
      match rest with
      | r :: rs => (x :: r) :: rs
      | [] => [[x]]

/-- `token.split(".")` from `decodeToken` in `auth-utils.ts`. -/
def jsSplitDot (s : String) : List String :=
  (splitCharList '.' s.data).map String.mk

/-- The decoded JWT payload, reduced to the only claim the client reads:
an optional numeric `exp` (epoch seconds). -/
structure Payload where
  exp : Option Int
deriving DecidableEq, Repr

/-- `decodeToken` from `auth-utils.ts` (lines 109-123): split on ".",
return `null` unless there are exactly 3 segments, then parse the second
segment; `parse` models the external `JSON.parse(atob(...))`, returning
`none` when that call would throw (which the source catches, returning
`null`). -/
def decodeToken (parse : String → Option Payload) (token : String) : Option Payload :=
  let parts := jsSplitDot token
  if parts.length = 3 then parse (parts.getD 1 "") else none

/-- `isTokenExpired` from `auth-utils.ts` (lines 128-141): expired when
the payload is `null` or `exp` is absent or falsy (`= 0`), otherwise the
JS comparison `payload.exp < currentTime`. `now` is `Date.now() / 1000`. -/
def isTokenExpired (parse : String → Option Payload) (now : Int) (token : String) : Bool :=
  match decodeToken parse token with
  | none => true
  | some payload =>
    match payload.exp with
    | none => true
    | some e => if e = 0 then true else decide (e < now)

/-- A JS `try`/`catch` block over code modelled in `Except`. -/
def jsTry {ε α : Type} (body : Except ε α) (handler : ε → Except ε α) : Except ε α :=
  match body with
  | .error e => handler e
  | .ok a => .ok a

/-- `decodeToken` with the exception dimension explicit: the external
parse may throw (`Except.error`); the source's `catch` returns `null`. -/
def decodeTokenX (parse : String → Except String Payload) (token : String) :
    Except String (Option Payload) :=
  jsTry
    (let parts := jsSplitDot token
     if parts.length = 3 then (parse (parts.getD 1 "")).map some else .ok none)
    (fun _ => .ok none)

/-- `isTokenExpired` with the exception dimension explicit; the source's
outer `catch` returns `true`. -/
def isTokenExpiredX (parse : String → Except String Payload) (now : Int) (token : String) :
    Except String Bool :=
  jsTry
    (match decodeTokenX parse token with
     | .error e => .error e
     | .ok none => .ok true
     | .ok (some payload) =>
       match payload.exp with
       | none => .ok true
       | some e => if e = 0 then .ok true else .ok (decide (e < now)))
    (fun _ => .ok true)

theorem decodeTokenX_eq (parse : String → Except String Payload) (token : String) :
    decodeTokenX parse token =
      .ok (decodeToken (fun s => (parse s).toOption) token) := by
  unfold decodeTokenX decodeToken jsTry
  by_cases h : (jsSplitDot token).length = 3
  · simp only [h, if_true]
    cases parse ((jsSplitDot token).getD 1 "") <;> simp [Except.map, Except.toOption]
  · simp [h]

theorem isTokenExpiredX_eq (parse : String → Except String Payload) (now : Int)
    (token : String) :
    isTokenExpiredX parse now token =
      .ok (isTokenExpired (fun s => (parse s).toOption) now token) := by
  unfold isTokenExpiredX isTokenExpired jsTry
  rw [decodeTokenX_eq]
  cases hd : decodeToken (fun s => (parse s).toOption) token with
  | none => simp
  | some payload =>
    obtain ⟨pexp⟩ := payload
    cases pexp with
    | none => simp
    | some e => by_cases he : e = 0 <;> simp [he]

/-- The device-local session storage: the two `AsyncStorage` entries the
source uses, keys "authToken" and "user" (the value under "user" is the
serialized JSON string written by `setStoredUser`). -/
structure Store where
  authToken : Option String
  user : Option String
deriving DecidableEq, Repr

/-- `getAuthToken` from `auth-utils.ts` (lines 23-31), reliable-storage
model: `AsyncStorage.getItem("authToken")`. -/
def getAuthToken (st : Store) : Option String := st.authToken

/-- `setAuthToken` from `auth-utils.ts`: `AsyncStorage.setItem("authToken", token)`. -/
def setAuthToken (token : String) (st : Store) : Store :=
  { st with authToken := some token }

/-- `removeAuthToken` from `auth-utils.ts`. -/
def removeAuthToken (st : Store) : Store := { st with authToken := none }

/-- `getStoredUser` from `auth-utils.ts` (lines 60-68), reliable-storage
model: read the "user" entry, `JSON.parse` it when present; `parseUser`
models `JSON.parse`, `none` when it would throw (caught, returning
`null`). -/
def getStoredUser {U : Type} (parseUser : String → Option U) (st : Store) : Option U :=
  match st.user with
  | some s => parseUser s
  | none => none

/-- `setStoredUser` from `auth-utils.ts`: stores `JSON.stringify(user)`;
`stringify` models `JSON.stringify`. -/
def setStoredUser {U : Type} (stringify : U → String) (u : U) (st : Store) : Store :=
  { st with user := some (stringify u) }

/-- `removeStoredUser` from `auth-utils.ts`. -/
def removeStoredUser (st : Store) : Store := { st with user := none }

/-- `clearAuthData` from `auth-utils.ts` (lines 97-104):
`AsyncStorage.multiRemove(["authToken", "user"])`. -/
def clearAuthData (_st : Store) : Store := { authToken := none, user := none }

/-- A call to one of the two session-store write operations, for stating
properties over arbitrary call sequences. -/
inductive AuthOp (U : Type) where
  | setTok (token : String)
  | setUsr (u : U)

/-- Run a sequence of `setAuthToken` / `setStoredUser` calls in order. -/
def applyOps {U : Type} (stringify : U → String) : List (AuthOp U) → Store → Store
  | [], st => st
  | op :: rest, st =>
    match op with
    | .setTok t => applyOps stringify rest (setAuthToken t st)
    | .setUsr u => applyOps stringify rest (setStoredUser stringify u st)

/-- JS truthiness of a `string | null` value: `null` and `""` are falsy. -/
def strTruthy : Option String → Bool
  | none => false
  | some s => !s.isEmpty

/-- The result record of `initializeAuth`. -/
structure InitResult (U : Type) where
  isAuthenticated : Bool
  user : Option U

/-- `initializeAuth` from `auth-utils.ts` (lines 179-207): read token and
user; if the token is truthy and not expired, report authenticated with
the stored user; otherwise clear the auth data and report logged out.
Returns the storage state after the call together with the result. -/
def initializeAuth {U : Type} (parse : String → Option Payload)
    (parseUser : String → Option U) (now : Int) (st : Store) :
    Store × InitResult U :=
  let token := getAuthToken st
  let user := getStoredUser parseUser st
  if strTruthy token && !isTokenExpired parse now (token.getD "") then
    (st, { isAuthenticated := true, user := user })
  else
    (clearAuthData st, { isAuthenticated := false, user := none })

/-!
Storage-failure model of the session store (`auth-utils.ts`): each
function wraps one `AsyncStorage` primitive in `try`/`catch`; the
primitive's outcome is passed in as an `Except` value (`error` = the
awaited promise rejected). Reads catch and return `null`; writes catch,
log, and `throw error` again.
-/

/-- `getAuthToken` with the storage-failure dimension: `catch` returns
`null`. -/
def getAuthTokenE {E : Type} (read : Except E (Option String)) : Option String :=
  match read with
  | .ok t => t
  | .error _ => none

/-- `getStoredUser` with the storage-failure dimension: a storage error
or a `JSON.parse` throw is caught by the one `try`/`catch`, returning
`null`. -/
def getStoredUserE {E U : Type} (parseUser : String → Except E U)
    (read : Except E (Option String)) : Option U :=
  match read with
  | .error _ => none
  | .ok none => none
  | .ok (some s) =>
    match parseUser s with
    | .ok u => some u
    | .error _ => none

/-- `setAuthToken` with the storage-failure dimension: `catch` re-throws. -/
def setAuthTokenE {E : Type} (write : Except E Unit) : Except E Unit :=
  match write with
  | .ok _ => .ok ()
  | .error e => .error e

/-- `setStoredUser` with the storage-failure dimension: `catch` re-throws. -/
def setStoredUserE {E : Type} (write : Except E Unit) : Except E Unit :=
  match write with
  | .ok _ => .ok ()
  | .error e => .error e

/-- `removeAuthToken` with the storage-failure dimension: `catch` re-throws. -/
def removeAuthTokenE {E : Type} (write : Except E Unit) : Except E Unit :=
  match write with
  | .ok _ => .ok ()
  | .error e => .error e

/-- `removeStoredUser` with the storage-failure dimension: `catch` re-throws. -/
def removeStoredUserE {E : Type} (write : Except E Unit) : Except E Unit :=
  match write with
  | .ok _ => .ok ()
  | .error e => .error e

/-- `clearAuthData` with the storage-failure dimension (`multiRemove`):
`catch` re-throws. -/
def clearAuthDataE {E : Type} (write : Except E Unit) : Except E Unit :=
  match write with
  | .ok _ => .ok ()
  | .error e => .error e

/-!
The axios client module (request and response interceptors). `D` is the
type of backend response bodies, left abstract.
-/

/-- An outgoing request configuration: method, url, body, the
`Authorization` header slot, and the remaining headers. -/
structure ReqConfig where
  method : String
  url : String
  body : Option String
  authorization : Option String
  otherHeaders : List (String × String)
deriving DecidableEq, Repr

/-- The request interceptor: read "authToken" from `AsyncStorage`
(outcome passed as `readToken`; a throwing read is caught and the
request proceeds), and if the token is truthy set
`config.headers.Authorization` to `Bearer <token>`; return the config. -/
def requestInterceptor (readToken : Except String (Option String))
    (config : ReqConfig) : ReqConfig :=
  match readToken with
  | .error _ => config
  | .ok tok =>
    if strTruthy tok then
      { config with authorization := some ("Bearer " ++ tok.getD "") }
    else config

/-- The `response` object of a failed axios call, when one was received:
its HTTP status and its (possibly absent or falsy) body `data`. -/
structure RespInfo (D : Type) where
  status : Nat
  data : Option D
deriving DecidableEq, Repr

/-- The `AxiosError` fields the response interceptor inspects:
`error.response` (absent when no response was received), `error.code`
(absent or a string such as "ECONNABORTED"), and `error.message` (a
string; `""` models a falsy message). -/
structure AxiosErr (D : Type) where
  response : Option (RespInfo D)
  code : Option String
  message : String
deriving DecidableEq, Repr

/-- `error.response?.data`. -/
def respData {D : Type} (err : AxiosErr D) : Option D :=
  err.response.bind (fun r => r.data)

/-- `error.response?.status`. -/
def respStatus {D : Type} (err : AxiosErr D) : Option Nat :=
  err.response.map (fun r => r.status)

/-- The value a failed request rejects with: either the backend body
passed through unchanged, or an object with a single `error` message
field. -/
inductive Rejection (D : Type) where
  | body (d : D)
  | errMsg (msg : String)
deriving DecidableEq, Repr

/-- The rejection-value computation of the response interceptor's error
handler (the chain of returns after the 401 block). -/
def normalizeError {D : Type} (err : AxiosErr D) : Rejection D :=
  match respData err with
  | some d => .body d
  | none =>
    if err.code = some "ECONNABORTED" then
      .errMsg "Request timeout. Please try again."
    else if err.message = "Network Error" then
      .errMsg "Network error. Please check your connection."
    else if err.message ≠ "" then
      .errMsg err.message
    else
      .errMsg "An unexpected error occurred"

/-- The storage side effect of the error handler: on status 401 remove
the "authToken" and "user" entries (storage errors there are caught and
swallowed; in the reliable-storage model the removals succeed). -/
def handle401 {D : Type} (st : Store) (err : AxiosErr D) : Store :=
  if respStatus err = some 401 then
    { authToken := none, user := none }
  else st

/-- The whole error handler of the response interceptor: the storage
state after the 401 side effect, paired with the rejection value. -/
def responseErrorInterceptor {D : Type} (st : Store) (err : AxiosErr D) :
    Store × Rejection D :=
  (handle401 st err, normalizeError err)

/-!
Derived hike queries (`src/service/api/hike.ts`, lines 265-326). The
backend response of `getUserHikes` is passed in as `res`; `parseDate`
models `new Date(hike.hikeDate).valueOf()` (`none` = Invalid Date, whose
comparisons are all false), and `todayMidnight` models today's date with
hours, minutes, seconds and milliseconds zeroed.
-/

/-- The fields of a hike record that the derived queries inspect. -/
structure Hike where
  id : Nat
  name : String
  difficultyLevel : String
  hikeDate : String
deriving DecidableEq, Repr

/-- The `count` / `hikes` response shape of the hikes list endpoints. -/
structure HikesResponse where
  count : Nat
  hikes : List Hike
deriving DecidableEq, Repr

/-- `getHikesByDifficulty` (hike.ts lines 265-280): filter the user's
hikes by exact difficulty level, count = filtered length. -/
def getHikesByDifficulty (level : String) (res : HikesResponse) : HikesResponse :=
  let filteredHikes := res.hikes.filter (fun h => h.difficultyLevel == level)
  { count := filteredHikes.length, hikes := filteredHikes }

/-- `getUpcomingHikes` (hike.ts lines 285-303): keep hikes whose date is
on or after today's midnight. -/
def getUpcomingHikes (parseDate : String → Option Int) (todayMidnight : Int)
    (res : HikesResponse) : HikesResponse :=
  let upcomingHikes := res.hikes.filter (fun h =>
    match parseDate h.hikeDate with
    | some d => decide (todayMidnight ≤ d)
    | none => false)
  { count := upcomingHikes.length, hikes := upcomingHikes }

/-- `getPastHikes` (hike.ts lines 308-326): keep hikes whose date is
before today's midnight. -/
def getPastHikes (parseDate : String → Option Int) (todayMidnight : Int)
    (res : HikesResponse) : HikesResponse :=
  let pastHikes := res.hikes.filter (fun h =>
    match parseDate h.hikeDate with
    | some d => decide (d < todayMidnight)
    | none => false)
  { count := pastHikes.length, hikes := pastHikes }

/-! ### Helper lemmas -/

theorem decodeToken_empty (parse : String → Option Payload) :
    decodeToken parse "" = none := by
  have h : (jsSplitDot "").length = 1 := by decide
  unfold decodeToken
  simp [h]

theorem isTokenExpired_empty (parse : String → Option Payload) (now : Int) :
    isTokenExpired parse now "" = true := by
  unfold isTokenExpired
  rw [decodeToken_empty]

/-! ### Claims -/

/-- C1 (amended): `isTokenExpired` returns true for the empty string, for
any token without exactly 3 dot-separated segments, whenever the payload
fails to decode, and whenever the decoded payload lacks an `exp`; given a
positive current time it returns false exactly when the decoded `exp` is
a number greater than **or equal to** the current epoch-seconds time (so
a token whose `exp` equals the current time is reported NOT expired). -/
theorem isTokenExpired_characterization (parse : String → Option Payload)
    (now : Int) (hpos : 0 < now) :
    isTokenExpired parse now "" = true
    ∧ (∀ token, (jsSplitDot token).length ≠ 3 → isTokenExpired parse now token = true)
    ∧ (∀ token, decodeToken parse token = none → isTokenExpired parse now token = true)
    ∧ (∀ token p, decodeToken parse token = some p → p.exp = none →
        isTokenExpired parse now token = true)
    ∧ (∀ token, isTokenExpired parse now token = false ↔
        ∃ p e, decodeToken parse token = some p ∧ p.exp = some e ∧ now ≤ e) := by
  refine ⟨isTokenExpired_empty parse now, ?_, ?_, ?_, ?_⟩
  · intro token hlen
    have hdec : decodeToken parse token = none := by
      unfold decodeToken
      simp [hlen]
    unfold isTokenExpired
    rw [hdec]
  · intro token hdec
    unfold isTokenExpired
    rw [hdec]
  · intro token p hdec hexp
    unfold isTokenExpired
    rw [hdec]
    simp [hexp]
  · intro token
    unfold isTokenExpired
    cases hdec : decodeToken parse token with
    | none => simp [hdec]
    | some p =>
      obtain ⟨pexp⟩ := p
      cases pexp with
      | none => simp
      | some e =>
        by_cases he : e = 0
        · subst he
          simp only [if_true]
          constructor
          · intro hfalse
            exact absurd hfalse (by simp)
          · rintro ⟨p', e', hp', hexp', hle'⟩
            injection hp' with hp'
            rw [← hp'] at hexp'
            injection hexp' with hexp'
            omega
        · simp only [he, if_false]
          constructor
          · intro hlt
            refine ⟨⟨some e⟩, e, rfl, rfl, ?_⟩
            simp at hlt
            omega
          · rintro ⟨p', e', hp', hexp', hle'⟩
            injection hp' with hp'
            rw [← hp'] at hexp'
            injection hexp' with hexp'
            subst hexp'
            simp
            omega

/-- C1 witness: the amended characterization applied at current time
1000 with a parse giving `exp = 2000`: the empty token is expired. -/
theorem isTokenExpired_characterization_witness :
    (0 : Int) < 1000
    ∧ isTokenExpired (fun _ => some { exp := some 2000 }) 1000 "" = true :=
  ⟨by decide,
   (isTokenExpired_characterization (fun _ => some { exp := some 2000 }) 1000
     (by decide)).1⟩

/-- C1 counterexample: with the decoded `exp` equal to the current time
(1000), the claim as stated reports the token expired, but the code
returns false (not expired), because the source comparison is
`payload.exp < currentTime`. -/
theorem isTokenExpired_eq_now_counterexample :
    decodeToken (fun _ => some { exp := some 1000 }) "h.p.s" = some { exp := some 1000 }
    ∧ ¬((1000 : Int) > 1000)
    ∧ isTokenExpired (fun _ => some { exp := some 1000 }) 1000 "h.p.s" = false :=
  ⟨by decide, by decide, by decide⟩

/-- C4: with the exception dimension explicit, `isTokenExpired` never
propagates an exception: for every external parse behaviour, current
time and token it evaluates to `ok` of some boolean. -/
theorem isTokenExpired_total (parse : String → Except String Payload) (now : Int)
    (token : String) :
    ∃ b : Bool, isTokenExpiredX parse now token = Except.ok b :=
  ⟨_, isTokenExpiredX_eq parse now token⟩

/-- C4 witness: the totality theorem applied at a parse that always
throws and a concrete token. -/
theorem isTokenExpired_total_witness :
    ∃ b : Bool,
      isTokenExpiredX (fun _ => Except.error "bad json") 1000 "h.p.s" = Except.ok b :=
  isTokenExpired_total (fun _ => Except.error "bad json") 1000 "h.p.s"

/-- C5: after any sequence of `setAuthToken` / `setStoredUser` calls,
`clearAuthData` leaves the store fully logged out (both reads return
none), and it is idempotent. -/
theorem clearAuthData_clears {U : Type} (stringify : U → String)
    (parseUser : String → Option U) (ops : List (AuthOp U)) (st : Store) :
    getAuthToken (clearAuthData (applyOps stringify ops st)) = none
    ∧ getStoredUser parseUser (clearAuthData (applyOps stringify ops st)) = none
    ∧ clearAuthData (clearAuthData st) = clearAuthData st
    ∧ clearAuthData { authToken := none, user := none } =
        { authToken := none, user := none } :=
  ⟨rfl, rfl, rfl, rfl⟩

/-- C5 witness: the clear property applied to a concrete two-write
sequence on an initially nonempty store. -/
theorem clearAuthData_clears_witness :
    getAuthToken
      (clearAuthData
        (applyOps (fun u : Nat => toString u) [AuthOp.setTok "t1", AuthOp.setUsr 7]
          { authToken := some "t0", user := some "u0" })) = none :=
  (clearAuthData_clears (fun u : Nat => toString u) (fun _ => some 0)
    [AuthOp.setTok "t1", AuthOp.setUsr 7] { authToken := some "t0", user := some "u0" }).1

/-- C7: persistence-layer errors are caught and mapped to `null` by the
reads (`getAuthToken`, `getStoredUser`) and re-raised by the writes
(`setAuthToken`, `setStoredUser`, `removeAuthToken`, `removeStoredUser`,
`clearAuthData`). -/
theorem storage_failure_semantics {E U : Type} (e : E)
    (parseUser : String → Except E U) :
    getAuthTokenE (Except.error e) = none
    ∧ getStoredUserE parseUser (Except.error e) = none
    ∧ setAuthTokenE (Except.error e : Except E Unit) = Except.error e
    ∧ setStoredUserE (Except.error e : Except E Unit) = Except.error e
    ∧ removeAuthTokenE (Except.error e : Except E Unit) = Except.error e
    ∧ removeStoredUserE (Except.error e : Except E Unit) = Except.error e
    ∧ clearAuthDataE (Except.error e : Except E Unit) = Except.error e :=
  ⟨rfl, rfl, rfl, rfl, rfl, rfl, rfl⟩

/-- C7 witness: the asymmetric failure semantics at a concrete storage
error. -/
theorem storage_failure_semantics_witness :
    getAuthTokenE (Except.error "storage unavailable") = none
    ∧ setAuthTokenE (Except.error "storage unavailable" : Except String Unit) =
        Except.error "storage unavailable" :=
  ⟨(storage_failure_semantics "storage unavailable"
      (fun _ => (Except.error "storage unavailable" : Except String Nat))).1,
   (storage_failure_semantics "storage unavailable"
      (fun _ => (Except.error "storage unavailable" : Except String Nat))).2.2.1⟩

/-- C9: when the stored user entry exists but `JSON.parse` fails on it,
`getStoredUser` returns `null` — the same as when no user is stored. -/
theorem getStoredUser_bad_json {E U : Type} (parseUser : String → Except E U)
    (s : String) (e : E) (hparse : parseUser s = Except.error e) :
    getStoredUserE parseUser (Except.ok (some s)) = none
    ∧ getStoredUserE parseUser (Except.ok none) = none := by
  constructor
  · simp [getStoredUserE, hparse]
  · rfl

/-- C9 witness: a parse that throws on a concrete non-JSON entry. -/
theorem getStoredUser_bad_json_witness :
    getStoredUserE (fun _ => (Except.error "SyntaxError" : Except String Nat))
      (Except.ok (some "not-json")) = none :=
  (getStoredUser_bad_json (fun _ => (Except.error "SyntaxError" : Except String Nat))
    "not-json" "SyntaxError" rfl).1

/-! ### Error-normalization branch guards (spec side, from the claim's
wording, with the claim's priority order made explicit) -/

/-- Branch (a) of the spec's failure mapping: the backend returned an
error body. -/
def backendBodyCase {D : Type} (err : AxiosErr D) : Prop :=
  (respData err).isSome = true

/-- Branch (b): no backend body and the failure is a client-side
timeout. -/
def timeoutCase {D : Type} (err : AxiosErr D) : Prop :=
  respData err = none ∧ err.code = some "ECONNABORTED"

/-- Branch (c): no body, not a timeout, and the failure is a
connectivity failure. -/
def networkCase {D : Type} (err : AxiosErr D) : Prop :=
  respData err = none ∧ err.code ≠ some "ECONNABORTED" ∧ err.message = "Network Error"

/-- Branch (d): none of the above and the underlying failure carries a
message. -/
def messageCase {D : Type} (err : AxiosErr D) : Prop :=
  respData err = none ∧ err.code ≠ some "ECONNABORTED"
    ∧ err.message ≠ "Network Error" ∧ err.message ≠ ""

/-- Branch (e): none of the above. -/
def fallbackCase {D : Type} (err : AxiosErr D) : Prop :=
  respData err = none ∧ err.code ≠ some "ECONNABORTED" ∧ err.message = ""

/-- Exactly one of five alternatives holds. -/
def ExactlyOneOfFive (a b c d e : Prop) : Prop :=
  (a ∨ b ∨ c ∨ d ∨ e)
  ∧ (a → ¬b ∧ ¬c ∧ ¬d ∧ ¬e)
  ∧ (b → ¬c ∧ ¬d ∧ ¬e)
  ∧ (c → ¬d ∧ ¬e)
  ∧ (d → ¬e)

theorem normalizeError_body {D : Type} (err : AxiosErr D) (d : D)
    (hd : respData err = some d) : normalizeError err = Rejection.body d := by
  unfold normalizeError
  rw [hd]

theorem normalizeError_timeout {D : Type} (err : AxiosErr D)
    (hd : respData err = none) (hc : err.code = some "ECONNABORTED") :
    normalizeError err = Rejection.errMsg "Request timeout. Please try again." := by
  unfold normalizeError
  rw [hd]
  simp [hc]

theorem normalizeError_network {D : Type} (err : AxiosErr D)
    (hd : respData err = none) (hc : err.code ≠ some "ECONNABORTED")
    (hn : err.message = "Network Error") :
    normalizeError err = Rejection.errMsg "Network error. Please check your connection." := by
  unfold normalizeError
  rw [hd]
  simp [hc, hn]

theorem normalizeError_message {D : Type} (err : AxiosErr D)
    (hd : respData err = none) (hc : err.code ≠ some "ECONNABORTED")
    (hn : err.message ≠ "Network Error") (hm : err.message ≠ "") :
    normalizeError err = Rejection.errMsg err.message := by
  unfold normalizeError
  rw [hd]
  simp [hc, hn, hm]

theorem normalizeError_fallback {D : Type} (err : AxiosErr D)
    (hd : respData err = none) (hc : err.code ≠ some "ECONNABORTED")
    (hm : err.message = "") :
    normalizeError err = Rejection.errMsg "An unexpected error occurred" := by
  have hn : err.message ≠ "Network Error" := by
    rw [hm]
    decide
  unfold normalizeError
  rw [hd]
  simp [hc, hn, hm]

theorem normalizeError_guards {D : Type} (err : AxiosErr D) :
    ExactlyOneOfFive (backendBodyCase err) (timeoutCase err) (networkCase err)
      (messageCase err) (fallbackCase err) := by
  have hAN : ((respData err).isSome = true) ↔ ¬ (respData err = none) := by
    cases respData err <;> simp
  have hNE : err.message = "Network Error" → ¬ err.message = "" := by
    intro h1 h2
    rw [h1] at h2
    exact absurd h2 (by decide)
  unfold ExactlyOneOfFive backendBodyCase timeoutCase networkCase messageCase fallbackCase
  tauto

/-- C2: every failure falls in exactly one of the five normalization
branches, and `normalizeError` rejects with precisely that branch's
shape: the backend body unchanged, the timeout message, the network
message, the underlying message, or the fallback message. -/
theorem normalizeError_total_mapping {D : Type} (err : AxiosErr D) :
    ExactlyOneOfFive (backendBodyCase err) (timeoutCase err) (networkCase err)
      (messageCase err) (fallbackCase err)
    ∧ (∀ d, respData err = some d → normalizeError err = Rejection.body d)
    ∧ (timeoutCase err →
        normalizeError err = Rejection.errMsg "Request timeout. Please try again.")
    ∧ (networkCase err →
        normalizeError err = Rejection.errMsg "Network error. Please check your connection.")
    ∧ (messageCase err → normalizeError err = Rejection.errMsg err.message)
    ∧ (fallbackCase err →
        normalizeError err = Rejection.errMsg "An unexpected error occurred") :=
  ⟨normalizeError_guards err,
   fun d hd => normalizeError_body err d hd,
   fun h => normalizeError_timeout err h.1 h.2,
   fun h => normalizeError_network err h.1 h.2.1 h.2.2,
   fun h => normalizeError_message err h.1 h.2.1 h.2.2.1 h.2.2.2,
   fun h => normalizeError_fallback err h.1 h.2.1 h.2.2⟩

/-- A concrete client-side-timeout failure value. -/
def timeoutErrSample : AxiosErr Nat :=
  { response := none, code := some "ECONNABORTED",
    message := "timeout of 10000ms exceeded" }

/-- C2 witness: the total mapping applied to a concrete client-side
timeout failure yields exactly the timeout rejection. -/
theorem normalizeError_total_mapping_witness :
    normalizeError timeoutErrSample =
      Rejection.errMsg "Request timeout. Please try again." :=
  (normalizeError_total_mapping timeoutErrSample).2.2.1 ⟨rfl, rfl⟩

/-- C3: a 401 response clears both the stored token and the stored user
before the rejection is returned, so `getAuthToken` reads `null` on the
resulting store; any non-401 failure leaves the session store
unchanged. -/
theorem response_401_clears_session {D : Type} (st : Store) (err : AxiosErr D) :
    (respStatus err = some 401 →
      getAuthToken (responseErrorInterceptor st err).1 = none
      ∧ (responseErrorInterceptor st err).1.user = none)
    ∧ (respStatus err ≠ some 401 → (responseErrorInterceptor st err).1 = st)
    ∧ (responseErrorInterceptor st err).2 = normalizeError err := by
  refine ⟨?_, ?_, rfl⟩
  · intro h
    simp [responseErrorInterceptor, handle401, h, getAuthToken]
  · intro h
    simp [responseErrorInterceptor, handle401, h]

/-- A concrete 401 failure value. -/
def err401Sample : AxiosErr Nat :=
  { response := some { status := 401, data := none }, code := none,
    message := "Request failed with status code 401" }

/-- A concrete logged-in session store. -/
def loggedInStore : Store := { authToken := some "tok", user := some "alice" }

/-- C3 witness: a concrete 401 failure on a logged-in store leaves
`getAuthToken` reading `null`. -/
theorem response_401_clears_session_witness :
    getAuthToken (responseErrorInterceptor loggedInStore err401Sample).1 = none :=
  ((response_401_clears_session loggedInStore err401Sample).1 rfl).1

/-- A concrete request configuration used to exercise the request
interceptor. -/
def sampleConfig : ReqConfig :=
  { method := "GET", url := "/hikes", body := none, authorization := none,
    otherHeaders := [("Content-Type", "application/json")] }

/-- C6 counterexample: with the empty-string token present in storage,
the claim as stated requires an `Authorization: Bearer ` header to be
attached, but the interceptor forwards the request unchanged (JS
truthiness: `if (token)` skips `""`). -/
theorem requestInterceptor_empty_token_counterexample :
    getAuthTokenE (Except.ok (some "") : Except String (Option String)) = some ""
    ∧ requestInterceptor (Except.ok (some "")) sampleConfig = sampleConfig
    ∧ sampleConfig.authorization = none :=
  ⟨rfl, by decide, rfl⟩

/-- C6 (amended): if a **nonempty** token is present, the interceptor
sets exactly the `Authorization` header to `Bearer <token>` and changes
nothing else; if the token is absent or empty, or the storage read
fails, the request is forwarded unchanged. -/
theorem requestInterceptor_attaches_bearer (readToken : Except String (Option String))
    (config : ReqConfig) :
    (∀ t, readToken = Except.ok (some t) → t ≠ "" →
      requestInterceptor readToken config =
        { config with authorization := some ("Bearer " ++ t) })
    ∧ (readToken = Except.ok none → requestInterceptor readToken config = config)
    ∧ (readToken = Except.ok (some "") → requestInterceptor readToken config = config)
    ∧ (∀ e, readToken = Except.error e → requestInterceptor readToken config = config)
    ∧ (requestInterceptor readToken config).method = config.method
    ∧ (requestInterceptor readToken config).url = config.url
    ∧ (requestInterceptor readToken config).body = config.body
    ∧ (requestInterceptor readToken config).otherHeaders = config.otherHeaders := by
  refine ⟨?_, ?_, ?_, ?_, ?_, ?_, ?_, ?_⟩
  · intro t hread ht
    rw [hread]
    unfold requestInterceptor
    have hie : t.isEmpty = false := by
      cases hb : t.isEmpty
      · rfl
      · exact absurd ((String.isEmpty_iff t).mp hb) ht
    simp [strTruthy, hie]
  · intro hread
    rw [hread]
    rfl
  · intro hread
    rw [hread]
    rfl
  · intro e hread
    rw [hread]
    rfl
  all_goals
    cases readToken with
    | error e => rfl
    | ok tok =>
      unfold requestInterceptor
      by_cases htr : strTruthy tok = true <;> simp [htr]

/-- C6 witness: the amended interceptor property applied to a concrete
nonempty token and the sample request. -/
theorem requestInterceptor_attaches_bearer_witness :
    requestInterceptor (Except.ok (some "abc123")) sampleConfig =
      { sampleConfig with authorization := some ("Bearer " ++ "abc123") } :=
  (requestInterceptor_attaches_bearer (Except.ok (some "abc123")) sampleConfig).1
    "abc123" rfl (by decide)

/-- C8: `initializeAuth` reports authenticated (with the stored user,
leaving storage untouched) exactly when a token is present and not
expired; in every other case it clears both entries from storage and
returns a logged-out result. -/
theorem initializeAuth_spec {U : Type} (parse : String → Option Payload)
    (parseUser : String → Option U) (now : Int) (st : Store) :
    ((initializeAuth parse parseUser now st).2.isAuthenticated = true ↔
      ∃ t, getAuthToken st = some t ∧ isTokenExpired parse now t = false)
    ∧ ((initializeAuth parse parseUser now st).2.isAuthenticated = true →
        initializeAuth parse parseUser now st =
          (st, { isAuthenticated := true, user := getStoredUser parseUser st }))
    ∧ ((initializeAuth parse parseUser now st).2.isAuthenticated = false →
        initializeAuth parse parseUser now st =
          (clearAuthData st, { isAuthenticated := false, user := none })
        ∧ getAuthToken (initializeAuth parse parseUser now st).1 = none
        ∧ getStoredUser parseUser (initializeAuth parse parseUser now st).1 = none) := by
  cases ht : st.authToken with
  | none =>
    have hrun : initializeAuth parse parseUser now st =
        (clearAuthData st, { isAuthenticated := false, user := none }) := by
      unfold initializeAuth
      simp [getAuthToken, ht, strTruthy]
    rw [hrun]
    refine ⟨?_, ?_, ?_⟩
    · simp [getAuthToken, ht]
    · intro hauth
      exact absurd hauth (by simp)
    · intro _
      exact ⟨rfl, rfl, rfl⟩
  | some t =>
    by_cases hte : t = ""
    · subst hte
      have hrun : initializeAuth parse parseUser now st =
          (clearAuthData st, { isAuthenticated := false, user := none }) := by
        unfold initializeAuth
        have h0 : strTruthy (some "") = false := by decide
        simp [getAuthToken, ht, h0]
      rw [hrun]
      refine ⟨?_, ?_, ?_⟩
      · constructor
        · intro hauth
          exact absurd hauth (by simp)
        · rintro ⟨t', ht', hexp'⟩
          rw [getAuthToken, ht] at ht'
          injection ht' with ht'
          rw [← ht', isTokenExpired_empty parse now] at hexp'
          exact absurd hexp' (by simp)
      · intro hauth
        exact absurd hauth (by simp)
      · intro _
        exact ⟨rfl, rfl, rfl⟩
    · have htrue : strTruthy (some t) = true := by
        have hie : t.isEmpty = false := by
          cases hb : t.isEmpty
          · rfl
          · exact absurd ((String.isEmpty_iff t).mp hb) hte
        simp [strTruthy, hie]
      by_cases hexp : isTokenExpired parse now t = true
      · have hrun : initializeAuth parse parseUser now st =
            (clearAuthData st, { isAuthenticated := false, user := none }) := by
          unfold initializeAuth
          simp [getAuthToken, ht, htrue, hexp]
        rw [hrun]
        refine ⟨?_, ?_, ?_⟩
        · constructor
          · intro hauth
            exact absurd hauth (by simp)
          · rintro ⟨t', ht', hexp'⟩
            rw [getAuthToken, ht] at ht'
            injection ht' with ht'
            rw [← ht', hexp] at hexp'
            exact absurd hexp' (by simp)
        · intro hauth
          exact absurd hauth (by simp)
        · intro _
          exact ⟨rfl, rfl, rfl⟩
      · have hexpf : isTokenExpired parse now t = false := by
          cases hb : isTokenExpired parse now t
          · rfl
          · exact absurd hb hexp
        have hrun : initializeAuth parse parseUser now st =
            (st, { isAuthenticated := true, user := getStoredUser parseUser st }) := by
          unfold initializeAuth
          simp [getAuthToken, ht, htrue, hexpf]
        rw [hrun]
        refine ⟨?_, ?_, ?_⟩
        · constructor
          · intro _
            exact ⟨t, by rw [getAuthToken, ht], hexpf⟩
          · intro _
            rfl
        · intro _
          rfl
        · intro hauth
          exact absurd hauth (by simp)

/-- C8 witness: a stored token whose `exp` is 10 seconds in the past
(1000 vs now 1010) makes `initializeAuth` clear the session store and
report logged out. -/
theorem initializeAuth_spec_witness :
    getAuthToken
      (initializeAuth (fun _ => some { exp := some 1000 })
        (fun s : String => some s) 1010 loggedInStore).1 = none :=
  (((initializeAuth_spec (fun _ => some { exp := some 1000 })
      (fun s : String => some s) 1010 loggedInStore).2.2) (by decide)).2.1

/-- C10: each derived hike query returns a response whose `count` equals
the length of its `hikes` list, and every returned hike satisfies the
query's filter predicate (matching difficulty; date on or after today's
midnight; date before today's midnight). -/
theorem derived_hike_queries_spec (level : String) (parseDate : String → Option Int)
    (todayMidnight : Int) (res : HikesResponse) :
    (getHikesByDifficulty level res).count = (getHikesByDifficulty level res).hikes.length
    ∧ (∀ hk ∈ (getHikesByDifficulty level res).hikes, hk.difficultyLevel = level)
    ∧ (getUpcomingHikes parseDate todayMidnight res).count =
        (getUpcomingHikes parseDate todayMidnight res).hikes.length
    ∧ (∀ hk ∈ (getUpcomingHikes parseDate todayMidnight res).hikes,
        ∃ d, parseDate hk.hikeDate = some d ∧ todayMidnight ≤ d)
    ∧ (getPastHikes parseDate todayMidnight res).count =
        (getPastHikes parseDate todayMidnight res).hikes.length
    ∧ (∀ hk ∈ (getPastHikes parseDate todayMidnight res).hikes,
        ∃ d, parseDate hk.hikeDate = some d ∧ d < todayMidnight) := by
  refine ⟨rfl, ?_, rfl, ?_, rfl, ?_⟩
  · intro hk hmem
    have hp := (List.mem_filter.mp hmem).2
    exact eq_of_beq hp
  · intro hk hmem
    have hp := (List.mem_filter.mp hmem).2
    cases hd : parseDate hk.hikeDate with
    | none => rw [hd] at hp; exact absurd hp (by simp)
    | some d =>
      rw [hd] at hp
      exact ⟨d, rfl, of_decide_eq_true hp⟩
  · intro hk hmem
    have hp := (List.mem_filter.mp hmem).2
    cases hd : parseDate hk.hikeDate with
    | none => rw [hd] at hp; exact absurd hp (by simp)
    | some d =>
      rw [hd] at hp
      exact ⟨d, rfl, of_decide_eq_true hp⟩

/-- A concrete hikes-list response with one easy upcoming hike and one
difficult past hike (dates as epoch values, today's midnight = 500). -/
def sampleHikes : HikesResponse :=
  { count := 2,
    hikes := [{ id := 1, name := "Ridge", difficultyLevel := "Easy", hikeDate := "d1" },
              { id := 2, name := "Peak", difficultyLevel := "Difficult", hikeDate := "d2" }] }

/-- C10 witness: the derived-query property applied to the concrete
sample response with a concrete date parser. -/
theorem derived_hike_queries_spec_witness :
    (getHikesByDifficulty "Easy" sampleHikes).count =
      (getHikesByDifficulty "Easy" sampleHikes).hikes.length :=
  (derived_hike_queries_spec "Easy" (fun s => if s = "d1" then some 600 else some 400)
    500 sampleHikes).1

end HikeApp
